import Mathlib

/-!
Verification of the multi-agent workflow system (LangGraph-based pipeline:
prompt analysis → research → writing → human approval → finalize/rejected).

The definitions below are a shallow embedding of the Python sources:
  - `src/database/models.py`, `src/database/crud.py` (task records, CRUD)
  - `src/shared/redis_client.py` (workspace scratchpad store)
  - `src/agents/workflow.py` (graph nodes, approval interrupt, resume)
  - `src/agents/prompt_analyzer.py` (fallback keyword analyzer)
  - `src/agents/research_agent.py` (retrying research loop)
  - `src/agents/writing_agent.py` (template selection)
  - `src/agents/tools.py` (search tools, flaky test tool)
  - `src/api/routes/tasks.py` (approve endpoint)
  - `src/worker/celery_app.py` (execute/resume worker tasks)

Python dictionaries are modelled as association lists (insertion order
preserved, key overwrite keeps position), optional TypedDict fields as
`Option`, raised exceptions as `Except`.
-/

set_option autoImplicit false

namespace MAS

/-! ## Generic association-list store (Python dict / Redis keyspace / DB table) -/

/-- Lookup in an association list (first matching key, like a Python dict). -/
def alookup {α : Type} : List (String × α) → String → Option α
  | [], _ => none
  | (k', v) :: rest, k => if k' = k then some v else alookup rest k

/-- Update the value at a key in place (no-op when the key is absent). -/
def aupdate {α : Type} : List (String × α) → String → (α → α) → List (String × α)
  | [], _, _ => []
  | (k', v) :: rest, k, f =>
      if k' = k then (k', f v) :: aupdate rest k f else (k', v) :: aupdate rest k f

/-- Python dict assignment `d[k] = v`: overwrite in place, else append at the end. -/
def aset {α : Type} (d : List (String × α)) (k : String) (v : α) : List (String × α) :=
  if (alookup d k).isSome then aupdate d k (fun _ => v) else d ++ [(k, v)]

/-- Redis `DELETE` / Python `del d[k]`: drop every entry with the key. -/
def adelete {α : Type} : List (String × α) → String → List (String × α)
  | [], _ => []
  | (k', v) :: rest, k =>
      if k' = k then adelete rest k else (k', v) :: adelete rest k

/-! ## Python string helpers -/

/-- Does `pat` occur as a contiguous run inside `s` (viewed as char lists)? -/
def containsAux (pat : List Char) : List Char → Bool
  | [] => pat.isPrefixOf []
  | c :: rest => pat.isPrefixOf (c :: rest) || containsAux pat rest

/-- Python's `sub in s` substring test. -/
def pyIn (sub s : String) : Bool :=
  containsAux sub.data s.data

/-- Python's `s.lower()` (ASCII case folding, as `str.lower` acts on the
prompts here); structurally recursive so that it evaluates by `decide`. -/
def toLowerStr (s : String) : String :=
  ⟨s.data.map Char.toLower⟩

/-! ## Task lifecycle states (`src/database/models.py`, `TaskStatus`; the
`WorkflowStatus` constants in `src/agents/state.py` carry the same strings). -/

namespace TaskStatus

def PENDING : String := "PENDING"

def RUNNING : String := "RUNNING"

def RESEARCHING : String := "RESEARCHING"

def WRITING : String := "WRITING"

def AWAITING_APPROVAL : String := "AWAITING_APPROVAL"

def RESUMED : String := "RESUMED"

def COMPLETED : String := "COMPLETED"

def FAILED : String := "FAILED"

end TaskStatus

/-! ## Prompt analyzer fallback (`src/agents/prompt_analyzer.py`) -/

/-- Result of `PromptAnalyzer.analyze` / `_fallback_analysis`. -/
structure Analysis where
  topics : List String
  task_type : String
  context : String
deriving DecidableEq, Repr

/-- `any(word in prompt_lower for word in words)`. -/
def has_any (words : List String) (pl : String) : Bool :=
  words.any (fun w => pyIn w pl)

/-- Topic extraction of `PromptAnalyzer._fallback_analysis` (before the
non-empty default). Mirrors the six keyword checks in order. -/
def fallbackTopics (pl : String) : List String :=
  (if pyIn "langgraph" pl then ["LangGraph"] else [])
  ++ (if pyIn "crewai" pl then ["CrewAI"] else [])
  ++ (if pyIn "redis" pl then ["Redis"] else [])
  ++ (if pyIn "postgresql" pl || pyIn "postgres" pl then ["PostgreSQL"] else [])
  ++ (if pyIn "docker" pl then ["Docker"] else [])
  ++ (if pyIn "kubernetes" pl || pyIn "k8s" pl then ["Kubernetes"] else [])

/-- `PromptAnalyzer._fallback_analysis`: deterministic keyword analysis used
when the LLM-based analysis raises `JSONDecodeError` or `ValueError`. -/
def fallback_analysis (prompt : String) : Analysis :=
  let pl := toLowerStr prompt
  let topics0 := fallbackTopics pl
  let topics := if topics0 = [] then ["general topic"] else topics0
  let task_type :=
    if has_any ["compare", "vs", "versus", "difference"] pl then "comparison"
    else if has_any ["tutorial", "how to", "guide", "step"] pl then "tutorial"
    else if has_any ["analyze", "analysis", "evaluate", "examine"] pl then "analysis"
    else "summary"
  ⟨topics, task_type, ""⟩

/-! ## Writing templates (`src/agents/writing_agent.py`) -/

def COMPARISON_TEMPLATE : String :=
  "You are a technical writer creating a comparison.\n\nBased on the following research findings, write a clear comparison for a technical audience.\n\n{research_context}\n\n## Original Request:\n{prompt}\n\nWrite a professional comparison that:\n1. Highlights key differences between the subjects\n2. Discusses strengths and weaknesses of each\n3. Provides guidance on when to use each\n4. Is concise but comprehensive (2-3 paragraphs)\n\nComparison:"

def TUTORIAL_TEMPLATE : String :=
  "You are a technical writer creating a tutorial.\n\nBased on the following research findings, write a step-by-step tutorial.\n\n{research_context}\n\n## Original Request:\n{prompt}\n\nWrite a clear tutorial that:\n1. Lists prerequisites if needed\n2. Provides numbered, actionable steps\n3. Explains what each step accomplishes\n4. Includes practical examples\n5. Is beginner-friendly but technically accurate\n\nTutorial:"

def ANALYSIS_TEMPLATE : String :=
  "You are a technical analyst creating an in-depth analysis.\n\nBased on the following research findings, provide a comprehensive technical analysis.\n\n{research_context}\n\n## Original Request:\n{prompt}\n\nWrite a detailed analysis that:\n1. Examines key aspects in depth\n2. Discusses trade-offs and considerations\n3. Provides technical insights and recommendations\n4. Is thorough and well-structured\n\nAnalysis:"

def SUMMARY_TEMPLATE : String :=
  "You are a technical writer creating an informative summary.\n\nBased on the following research findings, write a clear summary.\n\n{research_context}\n\n## Original Request:\n{prompt}\n\nWrite a concise summary that:\n1. Covers the main points from the research\n2. Is well-organized and easy to understand\n3. Provides actionable information\n4. Is appropriate for a technical audience\n\nSummary:"

/-- `select_template` from `src/agents/writing_agent.py`:
`templates.get(task_type, SUMMARY_TEMPLATE)` over the four-key dict. -/
def select_template (task_type : String) : String :=
  if task_type = "comparison" then COMPARISON_TEMPLATE
  else if task_type = "tutorial" then TUTORIAL_TEMPLATE
  else if task_type = "analysis" then ANALYSIS_TEMPLATE
  else if task_type = "summary" then SUMMARY_TEMPLATE
  else SUMMARY_TEMPLATE

/-! ## Python resume payloads (`approval_node` in `src/agents/workflow.py`) -/

/-- A Python value as it can arrive in `Command(resume=...)`. -/
inductive PyVal where
  | pynone
  | pybool (b : Bool)
  | pystr (s : String)
  | pyint (n : Int)
  | pylist (xs : List PyVal)
  | pydict (entries : List (String × PyVal))

/-- Python truthiness `bool(x)` for the payload values above. -/
def PyVal.truthy : PyVal → Bool
  | .pynone => false
  | .pybool b => b
  | .pystr s => decide (s ≠ "")
  | .pyint n => decide (n ≠ 0)
  | .pylist xs => !xs.isEmpty
  | .pydict es => !es.isEmpty

/-- Python `d.get(k)` on a dict payload. -/
def PyVal.dictGet (es : List (String × PyVal)) (k : String) : Option PyVal :=
  alookup es k

/-- Routing target of the approval node (`Command(goto=...)`). -/
inductive Route where
  | finalize
  | failed
deriving DecidableEq, Repr

/-- The `Command` returned by `approval_node`: routing plus its
`update={"approved": ..., "feedback": ...}` payload. -/
structure ApprovalCommand where
  goto : Route
  approvedUpdate : Bool
  feedbackUpdate : PyVal

/-- `approval_node` (`src/agents/workflow.py` lines 43-54), after the
`interrupt` returns `approval_response`.  A dict payload is read with
`.get("approved", False)` / `.get("feedback", "")` (truthiness of the
`approved` value decides the branch); any other payload is interpreted as
`bool(approval_response)` with empty feedback. -/
def approval_node (approval_response : PyVal) : ApprovalCommand :=
  match approval_response with
  | .pydict es =>
      let approved := (PyVal.dictGet es "approved").getD (.pybool false)
      let feedback := (PyVal.dictGet es "feedback").getD (.pystr "")
      if approved.truthy then ⟨Route.finalize, true, feedback⟩
      else ⟨Route.failed, false, feedback⟩
  | v =>
      let approved := v.truthy
      if approved then ⟨Route.finalize, true, PyVal.pystr ""⟩
      else ⟨Route.failed, false, PyVal.pystr ""⟩

/-! ## Stage-local retry (`src/agents/research_agent.py`, tenacity) -/

/-- tenacity `wait_exponential(multiplier, min, max)`: the wait after attempt
number `n` is `multiplier * 2^(n-1)` clamped into `[lo, hi]`. -/
def wait_exponential (multiplier lo hi : Nat) (attempt : Nat) : Nat :=
  max lo (min (multiplier * 2 ^ (attempt - 1)) hi)

/-- `research_with_retry`: `@retry(stop=stop_after_attempt(3),
wait=wait_exponential(multiplier=1, min=2, max=10), reraise=True)` around one
tool invocation.  The tool is a stateful fallible call; the result records the
final outcome, the final tool state, and the waits performed between attempts.
The last exception is re-raised after the third failure. -/
def research_with_retry {σ : Type} (tool : σ → Except String String × σ) (s : σ) :
    Except String String × σ × List Nat :=
  match tool s with
  | (Except.ok v, s1) => (Except.ok v, s1, [])
  | (Except.error _, s1) =>
    let w1 := wait_exponential 1 2 10 1
    match tool s1 with
    | (Except.ok v, s2) => (Except.ok v, s2, [w1])
    | (Except.error _, s2) =>
      let w2 := wait_exponential 1 2 10 2
      match tool s2 with
      | (Except.ok v, s3) => (Except.ok v, s3, [w1, w2])
      | (Except.error e, s3) => (Except.error e, s3, [w1, w2])

/-! ## Search tools (`src/agents/tools.py`) -/

/-- `search_general`: general search tool with built-in flaky behaviour.  For
a query containing `__FLAKY_TEST__` the first call (per query, tracked in the
`_flaky_call_counts` dict) raises `RuntimeError`; later calls succeed.  Other
queries always succeed. -/
def search_general (counts : List (String × Nat)) (query : String) :
    Except String String × List (String × Nat) :=
  if pyIn "__FLAKY_TEST__" query then
    let call_key := "flaky_" ++ query
    let current_count := (alookup counts call_key).getD 0
    let counts' := aset counts call_key (current_count + 1)
    if current_count = 0 then
      (Except.error "Simulated transient failure for flaky test. This should trigger a retry.",
       counts')
    else
      (Except.ok ("Flaky search succeeded on attempt " ++ toString (current_count + 1)
          ++ ": Results for \x27" ++ query ++ "\x27"),
       counts')
  else
    (Except.ok ("General search results for: " ++ query), counts)

/-! ## Task records and CRUD (`src/database/models.py`, `src/database/crud.py`) -/

/-- One entry of `Task.agent_logs` (`{agent, action, timestamp}`); timestamps
abstracted to naturals. -/
structure LogEntry where
  agent : String
  action : String
  timestamp : Nat
deriving DecidableEq, Repr

/-- A row of the `tasks` table (the id is the association-list key; the row has
no error column — only `prompt`, `status`, `result`, `agent_logs`, timestamps). -/
structure TaskRecord where
  prompt : String
  status : String
  result : Option String
  agent_logs : Option (List LogEntry)
  created_at : Nat
  updated_at : Nat
deriving DecidableEq, Repr

/-- `update_task_status` applied to one row. -/
def TaskRecord.setStatus (t : TaskRecord) (status : String) (now : Nat) : TaskRecord :=
  { t with status := status, updated_at := now }

/-- `update_task_result` applied to one row (sets result and status). -/
def TaskRecord.setResult (t : TaskRecord) (result : String) (status : String) (now : Nat) :
    TaskRecord :=
  { t with result := some result, status := status, updated_at := now }

/-- `append_agent_log` applied to one row: `agent_logs = [*agent_logs, entry]`
(a `None` log column is first replaced by `[]`). -/
def TaskRecord.appendLog (t : TaskRecord) (agent action : String) (now : Nat) : TaskRecord :=
  { t with agent_logs := some ((t.agent_logs.getD []) ++ [⟨agent, action, now⟩]),
           updated_at := now }

/-- The task table. -/
abbrev Db : Type := List (String × TaskRecord)

/-- `update_task_status(db, task_id, status)`: no-op when the id is absent. -/
def update_task_status (db : Db) (task_id : String) (status : String) (now : Nat) : Db :=
  aupdate db task_id (fun t => t.setStatus status now)

/-- `update_task_result(db, task_id, result, status)`. -/
def update_task_result (db : Db) (task_id : String) (result status : String) (now : Nat) : Db :=
  aupdate db task_id (fun t => t.setResult result status now)

/-- `append_agent_log(db, task_id, agent, action)`. -/
def append_agent_log (db : Db) (task_id : String) (agent action : String) (now : Nat) : Db :=
  aupdate db task_id (fun t => t.appendLog agent action now)

/-- The mutating task-record operations of `src/database/crud.py`
(creation aside), used to state log append-onlyness over arbitrary
operation sequences. -/
inductive CrudOp where
  | setStatus (status : String) (now : Nat)
  | setResult (result : String) (status : String) (now : Nat)
  | appendLog (agent action : String) (now : Nat)
deriving DecidableEq, Repr

/-- Apply one CRUD operation to a row. -/
def applyOp (t : TaskRecord) : CrudOp → TaskRecord
  | .setStatus status now => t.setStatus status now
  | .setResult result status now => t.setResult result status now
  | .appendLog agent action now => t.appendLog agent action now

/-- Apply a sequence of CRUD operations to a row. -/
def applyOps (t : TaskRecord) (ops : List CrudOp) : TaskRecord :=
  ops.foldl applyOp t

/-- The activity log of a row as a plain list. -/
def logsOf (t : TaskRecord) : List LogEntry :=
  t.agent_logs.getD []

/-! ## Workspace scratchpad (`src/shared/redis_client.py`) -/

/-- `get_workspace_key`: pattern `task:<task_id>:workspace`. -/
def get_workspace_key (task_id : String) : String :=
  "task:" ++ task_id ++ ":workspace"

/-- The JSON object the research stage stores under the workspace key. -/
structure WorkspaceDoc where
  research_results : List (String × String)
  topics : List String
  task_type : String
  context : String
deriving DecidableEq, Repr

/-- `delete_workspace(task_id)`: delete the key `task:<task_id>:workspace`. -/
def delete_workspace {α : Type} (task_id : String) (store : List (String × α)) :
    List (String × α) :=
  adelete store (get_workspace_key task_id)

/-- `save_to_workspace(task_id, data)` for the fixed research document: the
shallow JSON merge overwrites all four fields, so it is a key assignment. -/
def save_to_workspace (task_id : String) (doc : WorkspaceDoc)
    (store : List (String × WorkspaceDoc)) : List (String × WorkspaceDoc) :=
  aset store (get_workspace_key task_id) doc

/-! ## Workflow state (`src/agents/state.py`, `WorkflowState`, a
`TypedDict` with `total=False`: every field optional). -/

structure WorkflowState where
  task_id : Option String
  prompt : Option String
  status : Option String
  research_results : Option (List (String × String))
  research_queries : Option (List String)
  task_type : Option String
  draft : Option String
  result : Option String
  approved : Option Bool
  feedback : Option String
  error : Option String
deriving DecidableEq, Repr

/-- The partial state returned by `finalize_node` / `failed_node`
(`none` = key absent from the returned dict). -/
structure NodePatch where
  result : Option String
  error : Option String
  status : Option String
deriving DecidableEq, Repr

/-- LangGraph merge of a node's returned dict into the state: provided keys
overwrite, absent keys keep their value. -/
def mergePatch (st : WorkflowState) (p : NodePatch) : WorkflowState :=
  { st with
    result := match p.result with | some r => some r | none => st.result
    error := match p.error with | some e => some e | none => st.error
    status := match p.status with | some s => some s | none => st.status }

/-! ## Terminal graph nodes (`src/agents/workflow.py`) -/

/-- `finalize_node`: deletes the Redis workspace of `state["task_id"]` and
returns `{"result": draft, "status": COMPLETED}`.  Nothing touches the
checkpointer. -/
def finalize_node {α : Type} (redis : List (String × α)) (state : WorkflowState) :
    List (String × α) × NodePatch :=
  let task_id := state.task_id.getD ""
  let draft := state.draft.getD ""
  (delete_workspace task_id redis,
   ⟨some draft, none, some TaskStatus.COMPLETED⟩)

/-- `failed_node`: deletes the Redis workspace and returns
`{"error": feedback, "status": FAILED}` with
`feedback = state.get("feedback", "Draft was rejected")`. -/
def failed_node {α : Type} (redis : List (String × α)) (state : WorkflowState) :
    List (String × α) × NodePatch :=
  let task_id := state.task_id.getD ""
  let feedback := state.feedback.getD "Draft was rejected"
  (delete_workspace task_id redis,
   ⟨none, some feedback, some TaskStatus.FAILED⟩)

/-! ## Research node (`src/agents/research_agent.py`) -/

/-- The query built for a topic: `f"{topic} - {prompt}"`, plus
`f" | Context: {context}"` when the context string is truthy. -/
def research_query (prompt context topic : String) : String :=
  let query := topic ++ " - " ++ prompt
  if context ≠ "" then query ++ " | Context: " ++ context else query

/-- The string stored for one topic: the retried tool result, or the
`"Research failed: ..."` marker when the retries were exhausted. -/
def researchValue (tool : String → Except String String) (qOf : String → String)
    (topic : String) : String :=
  match tool (qOf topic) with
  | Except.ok v => v
  | Except.error e => "Research failed: " ++ e

/-- The per-topic loop of `research_node`, building the `research_results`
dict in topic order (`tool` is the already-retried research call). -/
def research_loop (tool : String → Except String String) (qOf : String → String) :
    List String → List (String × String) → List (String × String)
  | [], acc => acc
  | topic :: rest, acc =>
      research_loop tool qOf rest (aset acc topic (researchValue tool qOf topic))

/-- The patch returned by `research_node`. -/
structure ResearchPatch where
  research_results : List (String × String)
  research_queries : List String
  task_type : String
  status : String
deriving DecidableEq, Repr

/-- `research_node`: analyze the prompt (`analyze` abstracts
`PromptAnalyzer.analyze`, which is `fallback_analysis` when the LLM fails),
research every topic with the retried tool, save the findings to the
workspace, and return the research patch.  A topic whose research still
raises is kept with a `"Research failed: ..."` marker. -/
def research_node (analyze : String → Analysis) (tool : String → Except String String)
    (redis : List (String × WorkspaceDoc)) (state : WorkflowState) :
    List (String × WorkspaceDoc) × ResearchPatch :=
  let task_id := state.task_id.getD ""
  let prompt := state.prompt.getD ""
  let analysis := analyze prompt
  let topics := analysis.topics
  let task_type := analysis.task_type
  let context := analysis.context
  let research_results := research_loop tool (research_query prompt context) topics []
  let redis' := save_to_workspace task_id ⟨research_results, topics, task_type, context⟩ redis
  (redis', ⟨research_results, topics, task_type, TaskStatus.RESEARCHING⟩)

/-! ## Approve endpoint and resume worker (`src/api/routes/tasks.py`,
`src/worker/celery_app.py`) -/

/-- Body of `POST /api/v1/tasks/{id}/approve` (`TaskApprove`: required
`approved`, optional `feedback`). -/
structure ApproveRequest where
  approved : Bool
  feedback : Option String
deriving DecidableEq, Repr

/-- The endpoint's outcome: success payload or an `HTTPException`. -/
inductive ApiResponse where
  | ok (task_id : String) (status : String)
  | clientError (code : Nat) (detail : String)
deriving DecidableEq, Repr

/-- A queued `resume_workflow.delay(task_id, approved, feedback)` command. -/
structure QueuedResume where
  task_id : String
  approved : Bool
  feedback : String
deriving DecidableEq, Repr

/-- The shared system state: task table, Celery queue, Redis workspace store,
and the in-memory LangGraph checkpointer (`MemorySaver`, one checkpoint per
thread id). -/
structure Sys where
  db : Db
  queue : List QueuedResume
  redis : List (String × WorkspaceDoc)
  checkpoints : List (String × WorkflowState)
deriving DecidableEq, Repr

/-- `approve_task` (`src/api/routes/tasks.py` lines 92-131): 404 when the task
is missing; 400 when its status is not `AWAITING_APPROVAL` (no mutation);
otherwise on `approved=true` enqueue `resume_workflow.delay(task_id,
approved, feedback or "")` and set status `RESUMED`, and on `approved=false`
set status `FAILED` without enqueuing. -/
def approve_task (sys : Sys) (task_id : String) (req : ApproveRequest) (now : Nat) :
    ApiResponse × Sys :=
  match alookup sys.db task_id with
  | none =>
      (ApiResponse.clientError 404 ("Task with id " ++ task_id ++ " not found"), sys)
  | some task =>
      if task.status ≠ TaskStatus.AWAITING_APPROVAL then
        (ApiResponse.clientError 400
          ("Task is not awaiting approval (current status: " ++ task.status ++ ")"), sys)
      else
        let new_status := if req.approved then TaskStatus.RESUMED else TaskStatus.FAILED
        let queue' :=
          if req.approved then
            sys.queue ++ [⟨task_id, req.approved, req.feedback.getD ""⟩]
          else sys.queue
        (ApiResponse.ok task_id new_status,
         { sys with db := update_task_status sys.db task_id new_status now, queue := queue' })

/-- The value the resume payload's feedback is merged back as (the worker
always passes a string). -/
def feedbackString : PyVal → String
  | .pystr s => s
  | _ => ""

/-- Merge the approval node's `Command(update=...)` into the state. -/
def applyApprovalCmd (st : WorkflowState) (cmd : ApprovalCommand) : WorkflowState :=
  { st with approved := some cmd.approvedUpdate,
            feedback := some (feedbackString cmd.feedbackUpdate) }

/-- Result of resuming the graph: updated Redis store, updated checkpointer,
and the final state (`none` when no checkpoint existed, in which case the
real `graph.invoke(Command(resume=...))` raises). -/
structure ResumeResult where
  redis : List (String × WorkspaceDoc)
  checkpoints : List (String × WorkflowState)
  final : Option WorkflowState
deriving DecidableEq, Repr

/-- `run_workflow(task_id, "", resume=True, resume_value={"approved": a,
"feedback": f})`: load the checkpoint, run `approval_node` on the payload,
route to `finalize_node` or `failed_node`, merge its patch, and store the
final checkpoint (the `MemorySaver` overwrites the thread's checkpoint; it is
never deleted). -/
def run_workflow_resume (redis : List (String × WorkspaceDoc))
    (cps : List (String × WorkflowState)) (task_id : String)
    (approved : Bool) (feedback : String) : ResumeResult :=
  match alookup cps task_id with
  | none => ⟨redis, cps, none⟩
  | some st =>
      let cmd := approval_node
        (PyVal.pydict [("approved", PyVal.pybool approved), ("feedback", PyVal.pystr feedback)])
      let st1 := applyApprovalCmd st cmd
      match cmd.goto with
      | Route.finalize =>
          let out := finalize_node redis st1
          let st2 := mergePatch st1 out.2
          ⟨out.1, aset cps task_id st2, some st2⟩
      | Route.failed =>
          let out := failed_node redis st1
          let st2 := mergePatch st1 out.2
          ⟨out.1, aset cps task_id st2, some st2⟩

/-- `resume_workflow` (`src/worker/celery_app.py` lines 152-203): set status
`RESUMED`, append the approval log entry, resume the graph; on a
`COMPLETED` final state store the result, otherwise set status `FAILED`
(the state's `error` string is logged but not persisted to the record). -/
def resume_workflow (sys : Sys) (task_id : String) (approved : Bool) (feedback : String)
    (now : Nat) : Sys :=
  let db1 := update_task_status sys.db task_id TaskStatus.RESUMED now
  let db2 := append_agent_log db1 task_id "Orchestrator"
      ("Human approval received: " ++ (if approved then "Approved" else "Rejected")) now
  let r := run_workflow_resume sys.redis sys.checkpoints task_id approved feedback
  match r.final with
  | none =>
      { db := update_task_status db2 task_id TaskStatus.FAILED now,
        queue := sys.queue, redis := r.redis, checkpoints := r.checkpoints }
  | some st =>
      if st.status.getD TaskStatus.COMPLETED = TaskStatus.COMPLETED then
        { db := append_agent_log
            (update_task_result db2 task_id (st.result.getD "") TaskStatus.COMPLETED now)
            task_id "Orchestrator" "Workflow completed" now,
          queue := sys.queue, redis := r.redis, checkpoints := r.checkpoints }
      else
        { db := update_task_status db2 task_id TaskStatus.FAILED now,
          queue := sys.queue, redis := r.redis, checkpoints := r.checkpoints }

/-- Run a list of queued resume commands in order. -/
def run_queue (cmds : List QueuedResume) (sys : Sys) (now : Nat) : Sys :=
  match cmds with
  | [] => sys
  | c :: rest => run_queue rest (resume_workflow sys c.task_id c.approved c.feedback now) now

/-- Drain the Celery queue: the worker executes every enqueued resume. -/
def process_queue (sys : Sys) (now : Nat) : Sys :=
  run_queue sys.queue { sys with queue := [] } now

/-- End-to-end handling of one approve/reject API call: the endpoint runs,
then the worker processes whatever it enqueued. -/
def handle_approve (sys : Sys) (task_id : String) (req : ApproveRequest) (now : Nat) :
    ApiResponse × Sys :=
  let out := approve_task sys task_id req now
  (out.1, process_queue out.2 now)

/-! ## A concrete suspended task, as produced by `execute_workflow` reaching
the approval interrupt: status `AWAITING_APPROVAL`, workspace saved,
checkpoint holding the pre-approval state. -/

def st0 : WorkflowState :=
  ⟨some "t1", some "Compare Redis and PostgreSQL", some TaskStatus.WRITING,
   some [("Redis", "findings about Redis"), ("PostgreSQL", "findings about PostgreSQL")],
   some ["Redis", "PostgreSQL"], some "comparison",
   some "the draft", none, none, none, none⟩

def rec0 : TaskRecord :=
  ⟨"Compare Redis and PostgreSQL", TaskStatus.AWAITING_APPROVAL, none, some [], 0, 1⟩

def doc0 : WorkspaceDoc :=
  ⟨[("Redis", "findings about Redis"), ("PostgreSQL", "findings about PostgreSQL")],
   ["Redis", "PostgreSQL"], "comparison", ""⟩

def sys0 : Sys :=
  ⟨[("t1", rec0)], [], [(get_workspace_key "t1", doc0)], [("t1", st0)]⟩

/-! ## Store lemmas -/

theorem alookup_aupdate_self {α : Type} (d : List (String × α)) (k : String) (f : α → α) :
    alookup (aupdate d k f) k = (alookup d k).map f := by
  induction d with
  | nil => rfl
  | cons p rest ih =>
      obtain ⟨k', v⟩ := p
      by_cases h : k' = k
      · rw [aupdate, if_pos h, alookup, if_pos h, alookup, if_pos h]; rfl
      · rw [aupdate, if_neg h, alookup, if_neg h, alookup, if_neg h, ih]

theorem alookup_aupdate_ne {α : Type} (d : List (String × α)) (k k' : String) (f : α → α)
    (h : k' ≠ k) : alookup (aupdate d k f) k' = alookup d k' := by
  induction d with
  | nil => rfl
  | cons p rest ih =>
      obtain ⟨k₀, v⟩ := p
      by_cases h0 : k₀ = k
      · subst h0
        rw [aupdate, if_pos rfl, alookup, if_neg (fun hh => h hh.symm), alookup,
          if_neg (fun hh => h hh.symm), ih]
      · by_cases h1 : k₀ = k'
        · rw [aupdate, if_neg h0, alookup, if_pos h1, alookup, if_pos h1]
        · rw [aupdate, if_neg h0, alookup, if_neg h1, alookup, if_neg h1, ih]

theorem alookup_append_of_none {α : Type} (d e : List (String × α)) (k : String)
    (h : alookup d k = none) : alookup (d ++ e) k = alookup e k := by
  induction d with
  | nil => rfl
  | cons p rest ih =>
      obtain ⟨k', v⟩ := p
      by_cases h0 : k' = k
      · rw [alookup, if_pos h0] at h
        exact absurd h (by simp)
      · rw [alookup, if_neg h0] at h
        rw [List.cons_append, alookup, if_neg h0]
        exact ih h

theorem alookup_aset_self {α : Type} (d : List (String × α)) (k : String) (v : α) :
    alookup (aset d k v) k = some v := by
  unfold aset
  by_cases h : (alookup d k).isSome
  · rw [if_pos h, alookup_aupdate_self]
    obtain ⟨w, hw⟩ := Option.isSome_iff_exists.mp h
    simp [hw]
  · rw [Option.not_isSome_iff_eq_none] at h
    rw [if_neg (by simp [h]), alookup_append_of_none d _ k h, alookup, if_pos rfl]

theorem alookup_append_of_some {α : Type} (d e : List (String × α)) (k : String) (v : α)
    (h : alookup d k = some v) : alookup (d ++ e) k = some v := by
  induction d with
  | nil => exact absurd h (by rw [alookup]; simp)
  | cons p rest ih =>
      obtain ⟨k₀, v₀⟩ := p
      by_cases h0 : k₀ = k
      · rw [alookup, if_pos h0] at h
        rw [List.cons_append, alookup, if_pos h0, h]
      · rw [alookup, if_neg h0] at h
        rw [List.cons_append, alookup, if_neg h0]
        exact ih h

theorem alookup_aset_ne {α : Type} (d : List (String × α)) (k k' : String) (v : α)
    (h : k' ≠ k) : alookup (aset d k v) k' = alookup d k' := by
  unfold aset
  split
  · exact alookup_aupdate_ne d k k' _ h
  · cases hh : alookup d k' with
    | none =>
        rw [alookup_append_of_none d _ k' hh, alookup, if_neg (fun hx => h hx.symm)]
        rfl
    | some w => exact alookup_append_of_some d _ k' w hh

theorem alookup_adelete_self {α : Type} (d : List (String × α)) (k : String) :
    alookup (adelete d k) k = none := by
  induction d with
  | nil => rfl
  | cons p rest ih =>
      obtain ⟨k', v⟩ := p
      by_cases h : k' = k
      · rw [adelete, if_pos h, ih]
      · rw [adelete, if_neg h, alookup, if_neg h, ih]

theorem alookup_research_loop (tool : String → Except String String) (qOf : String → String)
    (ts : List String) (acc : List (String × String)) (t : String) :
    alookup (research_loop tool qOf ts acc) t =
      if t ∈ ts then some (researchValue tool qOf t) else alookup acc t := by
  induction ts generalizing acc with
  | nil => simp [research_loop]
  | cons t' rest ih =>
      rw [research_loop, ih]
      by_cases hmem : t ∈ rest
      · simp [hmem]
      · by_cases heq : t = t'
        · subst heq
          simp [hmem, alookup_aset_self]
        · have hnot : t ∉ t' :: rest := by simp [heq, hmem]
          rw [if_neg hmem, if_neg hnot]
          exact alookup_aset_ne acc t' t _ heq

/-! ## Claim theorems -/

/-- Claim C3 counterexample: on the comparison prompt the deterministic fallback
analyzer returns `task_kind = "comparison"`, not `"summary"`, refuting the
claim that the fallback always returns `task_kind = summary`. -/
theorem fallback_summary_counterexample :
    (fallback_analysis "Compare Redis and PostgreSQL for caching use cases.").task_type
        = "comparison"
    ∧ (fallback_analysis "Compare Redis and PostgreSQL for caching use cases.").task_type
        ≠ "summary" := by
  constructor <;> decide

/-- Claim C3 (amended): for every prompt the fallback analyzer returns a non-empty
topic list and a `task_kind` among comparison/tutorial/analysis/summary;
`task_kind = summary` exactly when no comparison, tutorial or analysis keyword
occurs in the lowercased prompt. -/
theorem fallback_analysis_spec (prompt : String) :
    (fallback_analysis prompt).topics ≠ []
    ∧ ((fallback_analysis prompt).task_type = "comparison"
        ∨ (fallback_analysis prompt).task_type = "tutorial"
        ∨ (fallback_analysis prompt).task_type = "analysis"
        ∨ (fallback_analysis prompt).task_type = "summary")
    ∧ ((fallback_analysis prompt).task_type = "summary" ↔
        (has_any ["compare", "vs", "versus", "difference"] (toLowerStr prompt) = false
          ∧ has_any ["tutorial", "how to", "guide", "step"] (toLowerStr prompt) = false
          ∧ has_any ["analyze", "analysis", "evaluate", "examine"] (toLowerStr prompt)
              = false)) := by
  unfold fallback_analysis
  refine ⟨?_, ?_, ?_⟩
  · dsimp only
    split <;> simp_all
  · dsimp only
    split_ifs <;> simp
  · dsimp only
    split_ifs <;> simp_all

/-- Claim C3 witness: a keyword-free prompt takes the `summary` default with a
non-empty topic list, while a prompt with a comparison keyword does not get
`summary`. -/
theorem fallback_analysis_spec_witness :
    (fallback_analysis "hello world").topics ≠ []
    ∧ (fallback_analysis "hello world").task_type = "summary"
    ∧ (fallback_analysis "compare them").task_type ≠ "summary" :=
  ⟨(fallback_analysis_spec "hello world").1,
   (fallback_analysis_spec "hello world").2.2.mpr ⟨by decide, by decide, by decide⟩,
   fun h => by
     have := (fallback_analysis_spec "compare them").2.2.mp h
     exact absurd this.1 (by decide)⟩

/-- Claim C10: template selection is total — for every `task_type` string the
result is one of the four templates, and any string outside the four keys
gets the summary template. -/
theorem select_template_total (task_type : String) :
    (select_template task_type = COMPARISON_TEMPLATE
      ∨ select_template task_type = TUTORIAL_TEMPLATE
      ∨ select_template task_type = ANALYSIS_TEMPLATE
      ∨ select_template task_type = SUMMARY_TEMPLATE)
    ∧ (task_type ≠ "comparison" → task_type ≠ "tutorial" → task_type ≠ "analysis" →
        task_type ≠ "summary" → select_template task_type = SUMMARY_TEMPLATE) := by
  unfold select_template
  split_ifs <;> simp_all

/-- Claim C10 witness: an unknown task kind selects the summary template. -/
theorem select_template_total_witness :
    select_template "poem" = SUMMARY_TEMPLATE :=
  (select_template_total "poem").2 (by decide) (by decide) (by decide) (by decide)

/-- Claim C9: the approval stage totally handles any resume payload — it always
routes to finalize or failed; a dict payload without an `approved` key is
treated as not approved; a non-dict payload is approved iff it is truthy,
with empty feedback. -/
theorem approval_node_total_handling (p : PyVal) :
    ((approval_node p).goto = Route.finalize ∨ (approval_node p).goto = Route.failed)
    ∧ (∀ es, p = PyVal.pydict es → PyVal.dictGet es "approved" = none →
        (approval_node p).goto = Route.failed ∧ (approval_node p).approvedUpdate = false)
    ∧ ((∀ es, p ≠ PyVal.pydict es) →
        ((approval_node p).goto = if p.truthy then Route.finalize else Route.failed)
        ∧ (approval_node p).feedbackUpdate = PyVal.pystr "") := by
  refine ⟨?_, ?_, ?_⟩
  · cases p <;> simp only [approval_node] <;> split <;> simp
  · intro es hp hnone
    subst hp
    simp [approval_node, hnone, PyVal.truthy]
  · intro hnd
    cases p with
    | pydict es => exact absurd rfl (hnd es)
    | pynone => simp [approval_node, PyVal.truthy]
    | pybool b => cases b <;> simp [approval_node, PyVal.truthy]
    | pystr s => by_cases h : s = "" <;> simp [approval_node, PyVal.truthy, h]
    | pyint n => by_cases h : n = 0 <;> simp [approval_node, PyVal.truthy, h]
    | pylist xs => cases xs <;> simp [approval_node, PyVal.truthy]

/-- Claim C9 witness: a dict payload without `approved` is rejected; a truthy
non-dict payload is approved with empty feedback. -/
theorem approval_node_total_handling_witness :
    (approval_node (PyVal.pydict [("feedback", PyVal.pystr "f")])).goto = Route.failed
    ∧ (approval_node (PyVal.pystr "yes")).goto = Route.finalize := by
  constructor
  · exact ((approval_node_total_handling _).2.1 _ rfl (by simp [PyVal.dictGet, alookup])).1
  · have h := ((approval_node_total_handling (PyVal.pystr "yes")).2.2
      (fun es h => by cases h)).1
    simpa [PyVal.truthy] using h

/-- Claim C4: the research retry policy — waits are exponential with multiplier 1
clamped into `[2, 10]`; after three failed attempts the last exception is
re-raised (with waits 2s then 2s between the attempts); a first success is
returned directly; and the flaky collaborator that fails on its first call
and succeeds on its second yields the successful result. -/
theorem research_retry_policy :
    (∀ n : Nat, 2 ≤ wait_exponential 1 2 10 n ∧ wait_exponential 1 2 10 n ≤ 10)
    ∧ (∀ (σ : Type) (tool : σ → Except String String × σ) (s : σ)
        (e₁ e₂ e₃ : String) (s₁ s₂ s₃ : σ),
        tool s = (Except.error e₁, s₁) → tool s₁ = (Except.error e₂, s₂) →
        tool s₂ = (Except.error e₃, s₃) →
        research_with_retry tool s = (Except.error e₃, s₃, [2, 2]))
    ∧ (∀ (σ : Type) (tool : σ → Except String String × σ) (s : σ) (v : String) (s₁ : σ),
        tool s = (Except.ok v, s₁) →
        research_with_retry tool s = (Except.ok v, s₁, []))
    ∧ (research_with_retry (fun counts => search_general counts "__FLAKY_TEST__") []).1
        = Except.ok "Flaky search succeeded on attempt 2: Results for \x27__FLAKY_TEST__\x27" := by
  refine ⟨?_, ?_, ?_, ?_⟩
  · intro n
    exact ⟨le_max_left _ _, max_le (by norm_num) (min_le_right _ _)⟩
  · intro σ tool s e₁ e₂ e₃ s₁ s₂ s₃ h1 h2 h3
    simp [research_with_retry, h1, h2, h3, wait_exponential]
  · intro σ tool s v s₁ h1
    simp [research_with_retry, h1]
  · rfl

/-- Claim C4 witness: a tool failing on all three attempts has its final exception
re-raised, a succeeding tool's value is returned. -/
theorem research_retry_policy_witness :
    research_with_retry (fun (_ : Unit) => (Except.error "boom", ())) ()
        = (Except.error "boom", (), [2, 2])
    ∧ research_with_retry (fun (_ : Unit) => (Except.ok "fine", ())) ()
        = (Except.ok "fine", (), []) :=
  ⟨research_retry_policy.2.1 Unit _ () "boom" "boom" "boom" () () () rfl rfl rfl,
   research_retry_policy.2.2.1 Unit _ () "fine" () rfl⟩

theorem logsOf_applyOp (t : TaskRecord) (op : CrudOp) :
    ∃ tail, logsOf (applyOp t op) = logsOf t ++ tail := by
  cases op with
  | setStatus s now => exact ⟨[], by simp [applyOp, TaskRecord.setStatus, logsOf]⟩
  | setResult r s now => exact ⟨[], by simp [applyOp, TaskRecord.setResult, logsOf]⟩
  | appendLog a act now =>
      exact ⟨[⟨a, act, now⟩], by simp [applyOp, TaskRecord.appendLog, logsOf]⟩

/-- Claim C8: the activity log is append-only — any sequence of CRUD
operations on a task record preserves the existing log entries unchanged and
in order (the old log is a prefix of the new one), the log length is
non-decreasing, and `append_agent_log` adds exactly one entry at the end. -/
theorem activity_log_append_only (ops : List CrudOp) (t : TaskRecord) :
    (∃ tail, logsOf (applyOps t ops) = logsOf t ++ tail)
    ∧ (logsOf t).length ≤ (logsOf (applyOps t ops)).length
    ∧ (∀ (t' : TaskRecord) (agent action : String) (now : Nat),
        logsOf (t'.appendLog agent action now) = logsOf t' ++ [⟨agent, action, now⟩]) := by
  have key : ∀ (ops : List CrudOp) (t : TaskRecord),
      ∃ tail, logsOf (applyOps t ops) = logsOf t ++ tail := by
    intro ops
    induction ops with
    | nil => exact fun t => ⟨[], by simp [applyOps, List.foldl]⟩
    | cons op rest ih =>
        intro t
        obtain ⟨tl1, h1⟩ := logsOf_applyOp t op
        obtain ⟨tl2, h2⟩ := ih (applyOp t op)
        refine ⟨tl1 ++ tl2, ?_⟩
        have : applyOps t (op :: rest) = applyOps (applyOp t op) rest := by
          simp [applyOps, List.foldl]
        rw [this, h2, h1, List.append_assoc]
  refine ⟨key ops t, ?_, ?_⟩
  · obtain ⟨tail, h⟩ := key ops t
    rw [h]
    simp
  · intro t' a act now
    simp [TaskRecord.appendLog, logsOf]

/-- Claim C5: approving a task that is not awaiting approval returns a 400
response whose detail contains "not awaiting approval", and the system —
task record included — is left unchanged. -/
theorem approve_non_awaiting_400 (sys : Sys) (task_id : String) (req : ApproveRequest)
    (now : Nat) (task : TaskRecord)
    (h1 : alookup sys.db task_id = some task)
    (h2 : task.status ≠ TaskStatus.AWAITING_APPROVAL) :
    approve_task sys task_id req now
      = (ApiResponse.clientError 400
          ("Task is not awaiting approval (current status: " ++ task.status ++ ")"), sys)
    ∧ ∃ pre post,
        "Task is not awaiting approval (current status: " ++ task.status ++ ")"
          = pre ++ "not awaiting approval" ++ post := by
  constructor
  · unfold approve_task
    rw [h1]
    dsimp only
    rw [if_pos h2]
  · refine ⟨"Task is ", " (current status: " ++ task.status ++ ")", ?_⟩
    rw [← String.append_assoc, ← String.append_assoc]
    rfl

/-- Claim C5 witness: approving a still-pending task is rejected with 400 and
no mutation. -/
theorem approve_non_awaiting_400_witness :
    approve_task ⟨[("t9", ⟨"p", TaskStatus.PENDING, none, some [], 0, 0⟩)], [], [], []⟩
        "t9" ⟨true, none⟩ 7
      = (ApiResponse.clientError 400
          ("Task is not awaiting approval (current status: " ++ TaskStatus.PENDING ++ ")"),
         ⟨[("t9", ⟨"p", TaskStatus.PENDING, none, some [], 0, 0⟩)], [], [], []⟩) :=
  (approve_non_awaiting_400 _ "t9" ⟨true, none⟩ 7 ⟨"p", TaskStatus.PENDING, none, some [], 0, 0⟩
    (by rw [alookup]; simp) (by decide)).1

/-- Claim C6: on an awaiting task, `approved=true` sets the state to
`RESUMED` and enqueues the resume command carrying the payload (feedback
defaulted to the empty string), while `approved=false` sets the state to
`FAILED` and enqueues nothing. -/
theorem approve_awaiting_routes (sys : Sys) (task_id : String) (req : ApproveRequest)
    (now : Nat) (task : TaskRecord)
    (h1 : alookup sys.db task_id = some task)
    (h2 : task.status = TaskStatus.AWAITING_APPROVAL) :
    (req.approved = true →
      approve_task sys task_id req now
        = (ApiResponse.ok task_id TaskStatus.RESUMED,
           { sys with db := update_task_status sys.db task_id TaskStatus.RESUMED now,
                      queue := sys.queue ++ [⟨task_id, true, req.feedback.getD ""⟩] })
      ∧ (alookup (approve_task sys task_id req now).2.db task_id).map TaskRecord.status
          = some TaskStatus.RESUMED)
    ∧ (req.approved = false →
      approve_task sys task_id req now
        = (ApiResponse.ok task_id TaskStatus.FAILED,
           { sys with db := update_task_status sys.db task_id TaskStatus.FAILED now })
      ∧ (approve_task sys task_id req now).2.queue = sys.queue
      ∧ (alookup (approve_task sys task_id req now).2.db task_id).map TaskRecord.status
          = some TaskStatus.FAILED) := by
  have hmain : approve_task sys task_id req now
      = (ApiResponse.ok task_id (if req.approved then TaskStatus.RESUMED else TaskStatus.FAILED),
         { sys with
             db := update_task_status sys.db task_id
                     (if req.approved then TaskStatus.RESUMED else TaskStatus.FAILED) now,
             queue := if req.approved then
                 sys.queue ++ [⟨task_id, req.approved, req.feedback.getD ""⟩]
               else sys.queue }) := by
    unfold approve_task
    rw [h1]
    dsimp only
    rw [if_neg (not_not_intro h2)]
  constructor
  · intro ha
    rw [hmain, ha]
    refine ⟨by simp, ?_⟩
    simp only [update_task_status, if_pos, ite_true]
    rw [alookup_aupdate_self, h1]
    rfl
  · intro ha
    rw [hmain, ha]
    refine ⟨by simp, by simp, ?_⟩
    simp only [update_task_status, ite_false]
    rw [alookup_aupdate_self, h1]
    rfl

/-- Claim C6 witness: approving the suspended task enqueues the resume
command and marks it `RESUMED`; rejecting enqueues nothing. -/
theorem approve_awaiting_routes_witness :
    (alookup (approve_task sys0 "t1" ⟨true, some "go"⟩ 4).2.db "t1").map TaskRecord.status
        = some TaskStatus.RESUMED
    ∧ (approve_task sys0 "t1" ⟨false, some "no"⟩ 4).2.queue = sys0.queue :=
  ⟨((approve_awaiting_routes sys0 "t1" ⟨true, some "go"⟩ 4 rec0 (by rw [sys0, alookup]; simp)
      rfl).1 rfl).2,
   ((approve_awaiting_routes sys0 "t1" ⟨false, some "no"⟩ 4 rec0 (by rw [sys0, alookup]; simp)
      rfl).2 rfl).2.1⟩

/-- Claim C1 counterexample: rejecting the suspended task `t1` with feedback
`"nope"` ends the task in state FAILED, but the feedback is written to no
error field: the task row has no error column, and the checkpointed workflow
state — the only holder of an `error` field — still has `error = none`,
because the reject branch never runs the rejected stage. -/
theorem reject_feedback_counterexample :
    ((alookup ((handle_approve sys0 "t1" ⟨false, some "nope"⟩ 2).2).db "t1").map
        TaskRecord.status = some TaskStatus.FAILED)
    ∧ ((alookup ((handle_approve sys0 "t1" ⟨false, some "nope"⟩ 2).2).checkpoints "t1").bind
        WorkflowState.error = none)
    ∧ ((alookup ((handle_approve sys0 "t1" ⟨false, some "nope"⟩ 2).2).checkpoints "t1").bind
        WorkflowState.error ≠ some "nope") := by
  refine ⟨by decide, by decide, by decide⟩

/-- Claim C1 (amended): rejecting an awaiting task via the approve endpoint
ends it in state Failed but enqueues no resume, so the rejected stage never
runs: the checkpointed workflow state, scratchpad and queue are unchanged and
the feedback is not written into any error field.  The rejected stage itself,
when executed on a state carrying feedback F, does return an `error = F`
terminal-failure patch. -/
theorem reject_sets_failed_without_error (sys : Sys) (task_id F : String)
    (task : TaskRecord) (now : Nat)
    (hq : sys.queue = [])
    (h1 : alookup sys.db task_id = some task)
    (h2 : task.status = TaskStatus.AWAITING_APPROVAL) :
    ((alookup ((handle_approve sys task_id ⟨false, some F⟩ now).2).db task_id).map
        TaskRecord.status = some TaskStatus.FAILED)
    ∧ ((handle_approve sys task_id ⟨false, some F⟩ now).2).checkpoints = sys.checkpoints
    ∧ ((handle_approve sys task_id ⟨false, some F⟩ now).2).redis = sys.redis
    ∧ ((handle_approve sys task_id ⟨false, some F⟩ now).2).queue = []
    ∧ (∀ (store : List (String × WorkspaceDoc)) (st : WorkflowState),
        st.feedback = some F →
        (failed_node store st).2.error = some F
        ∧ (failed_node store st).2.status = some TaskStatus.FAILED) := by
  have happ : approve_task sys task_id ⟨false, some F⟩ now
      = (ApiResponse.ok task_id TaskStatus.FAILED,
         { sys with db := update_task_status sys.db task_id TaskStatus.FAILED now }) := by
    unfold approve_task
    rw [h1]
    dsimp only
    rw [if_neg (not_not_intro h2)]
    simp
  have hsys : (handle_approve sys task_id ⟨false, some F⟩ now).2
      = { sys with db := update_task_status sys.db task_id TaskStatus.FAILED now,
                   queue := [] } := by
    unfold handle_approve
    rw [happ]
    dsimp only
    unfold process_queue
    dsimp only
    rw [hq]
    rfl
  rw [hsys]
  refine ⟨?_, rfl, rfl, rfl, ?_⟩
  · dsimp only
    rw [update_task_status, alookup_aupdate_self, h1]
    rfl
  · intro store st hf
    constructor
    · show some (st.feedback.getD "Draft was rejected") = some F
      rw [hf]
      rfl
    · rfl

/-- Claim C1 witness: the amended statement at the concrete suspended system. -/
theorem reject_sets_failed_without_error_witness :
    ((alookup ((handle_approve sys0 "t1" ⟨false, some "fb"⟩ 3).2).db "t1").map
        TaskRecord.status = some TaskStatus.FAILED)
    ∧ ((handle_approve sys0 "t1" ⟨false, some "fb"⟩ 3).2).checkpoints = sys0.checkpoints :=
  ⟨(reject_sets_failed_without_error sys0 "t1" "fb" rec0 3 rfl (by rw [sys0, alookup]; simp)
      rfl).1,
   (reject_sets_failed_without_error sys0 "t1" "fb" rec0 3 rfl (by rw [sys0, alookup]; simp)
      rfl).2.1⟩

/-- Claim C2 counterexample: approving the suspended task `t1` runs the
finalize terminal stage to completion; afterwards the scratchpad entry is
gone but the checkpoint for `t1` is still present — the checkpoint is never
released. -/
theorem terminal_checkpoint_counterexample :
    ((alookup ((handle_approve sys0 "t1" ⟨true, none⟩ 2).2).db "t1").map TaskRecord.status
        = some TaskStatus.COMPLETED)
    ∧ alookup ((handle_approve sys0 "t1" ⟨true, none⟩ 2).2).redis (get_workspace_key "t1")
        = none
    ∧ (alookup ((handle_approve sys0 "t1" ⟨true, none⟩ 2).2).checkpoints "t1").isSome
        = true := by
  refine ⟨by decide, by decide, by decide⟩

/-- Claim C2 (amended): both terminal stages release the task's scratchpad
entry — the workspace key is absent from the store they return — but the
checkpoint is not released: resuming into a terminal stage leaves a live
(overwritten, never deleted) checkpoint for the task. -/
theorem terminal_releases_scratchpad_not_checkpoint {α : Type}
    (store : List (String × α)) (st : WorkflowState)
    (redisW : List (String × WorkspaceDoc)) (cps : List (String × WorkflowState))
    (task_id : String) (approved : Bool) (feedback : String) (stc : WorkflowState)
    (hcp : alookup cps task_id = some stc) :
    alookup (finalize_node store st).1 (get_workspace_key (st.task_id.getD "")) = none
    ∧ alookup (failed_node store st).1 (get_workspace_key (st.task_id.getD "")) = none
    ∧ (alookup (run_workflow_resume redisW cps task_id approved feedback).checkpoints
        task_id).isSome = true := by
  refine ⟨alookup_adelete_self _ _, alookup_adelete_self _ _, ?_⟩
  unfold run_workflow_resume
  rw [hcp]
  dsimp only
  cases approved with
  | true =>
      simp [approval_node, PyVal.dictGet, alookup, PyVal.truthy, alookup_aset_self]
  | false =>
      simp [approval_node, PyVal.dictGet, alookup, PyVal.truthy, alookup_aset_self]

/-- Claim C2 witness: the amended statement at the concrete suspended system. -/
theorem terminal_releases_scratchpad_not_checkpoint_witness :
    alookup (finalize_node [(get_workspace_key "t1", "blob")] st0).1
        (get_workspace_key (st0.task_id.getD "")) = none
    ∧ (alookup (run_workflow_resume sys0.redis sys0.checkpoints "t1" true "ok").checkpoints
        "t1").isSome = true :=
  ⟨(terminal_releases_scratchpad_not_checkpoint [(get_workspace_key "t1", "blob")] st0
      sys0.redis sys0.checkpoints "t1" true "ok" st0 (by rw [sys0, alookup]; simp)).1,
   (terminal_releases_scratchpad_not_checkpoint [(get_workspace_key "t1", "blob")] st0
      sys0.redis sys0.checkpoints "t1" true "ok" st0 (by rw [sys0, alookup]; simp)).2.2⟩

/-- Claim C7: the research stage never fails on a failing topic — every
analyzed topic is a key of `research_results`; a topic whose retried
research call still raises `e` is mapped to the textual marker
`"Research failed: " ++ e` containing the exception message, a succeeding
topic to its result, and the stage returns its `RESEARCHING` patch normally. -/
theorem research_failure_retained (analyze : String → Analysis)
    (tool : String → Except String String) (redisW : List (String × WorkspaceDoc))
    (state : WorkflowState) (topic : String)
    (h : topic ∈ (analyze (state.prompt.getD "")).topics) :
    (alookup (research_node analyze tool redisW state).2.research_results topic).isSome = true
    ∧ (∀ e, tool (research_query (state.prompt.getD "")
          (analyze (state.prompt.getD "")).context topic) = Except.error e →
        alookup (research_node analyze tool redisW state).2.research_results topic
          = some ("Research failed: " ++ e))
    ∧ (∀ v, tool (research_query (state.prompt.getD "")
          (analyze (state.prompt.getD "")).context topic) = Except.ok v →
        alookup (research_node analyze tool redisW state).2.research_results topic
          = some v)
    ∧ (research_node analyze tool redisW state).2.status = TaskStatus.RESEARCHING := by
  have hres : (research_node analyze tool redisW state).2.research_results
      = research_loop tool
          (research_query (state.prompt.getD "") (analyze (state.prompt.getD "")).context)
          (analyze (state.prompt.getD "")).topics [] := rfl
  have hlk : alookup (research_node analyze tool redisW state).2.research_results topic
      = some (researchValue tool
          (research_query (state.prompt.getD "") (analyze (state.prompt.getD "")).context)
          topic) := by
    rw [hres, alookup_research_loop, if_pos h]
  refine ⟨?_, ?_, ?_, rfl⟩
  · rw [hlk]
    rfl
  · intro e he
    rw [hlk]
    unfold researchValue
    rw [he]
  · intro v hv
    rw [hlk]
    unfold researchValue
    rw [hv]

/-- Claim C7 witness: a topic whose research call raises is kept with the
error marker, and the stage's patch carries the `RESEARCHING` status. -/
theorem research_failure_retained_witness :
    alookup (research_node (fun _ => ⟨["A"], "summary", ""⟩)
        (fun _ => Except.error "boom") [] st0).2.research_results "A"
      = some ("Research failed: " ++ "boom")
    ∧ (research_node (fun _ => ⟨["A"], "summary", ""⟩)
        (fun _ => Except.error "boom") [] st0).2.status = TaskStatus.RESEARCHING :=
  ⟨(research_failure_retained (fun _ => ⟨["A"], "summary", ""⟩) (fun _ => Except.error "boom")
      [] st0 "A" (by simp)).2.1 "boom" rfl,
   (research_failure_retained (fun _ => ⟨["A"], "summary", ""⟩) (fun _ => Except.error "boom")
      [] st0 "A" (by simp)).2.2.2⟩

end MAS
